import Mathlib

/-!
Shallow embedding of `src/index.js` (the Pi claimable-balance bot) and proofs
about it.  External collaborators (bip39, ed25519-hd-key, stellar-sdk keypairs,
the Horizon server) are modelled as abstract oracles (`CryptoPrims`, `Server`);
the program's own control flow, transaction construction, validation and error
handling are translated statement by statement.  Each account-processing run is
modelled as the list of observable events it performs (log lines, network
calls, notifications) together with an `Except` outcome recording whether an
exception escaped the function.
-/

namespace Fastbotclaim

/-! ## Error model (JS error values as observed by the catch handler) -/

/-- Horizon structured result codes, `e.response.data.extras.result_codes`.
In JS this is an object, hence always truthy when present; we model it as an
opaque record so that presence alone decides the `||` fallback. -/
structure ResultCodes where
  transactionCode : String
  operationCodes : List String
deriving DecidableEq, Repr

/-- The `extras` field of a Horizon error payload. -/
structure ErrorExtras where
  result_codes : Option ResultCodes
deriving DecidableEq, Repr

/-- The `data` field of an axios error response. -/
structure ErrorData where
  extras : Option ErrorExtras
deriving DecidableEq, Repr

/-- An HTTP response attached to a thrown error (`e.response`). -/
structure HttpResponse where
  status : Nat
  data : Option ErrorData
deriving DecidableEq, Repr

/-- A JS error value as inspected by the catch block: a message plus an
optional HTTP response. -/
structure JsError where
  message : String
  response : Option HttpResponse
deriving DecidableEq, Repr

/-- The TypeError raised by `account.mainMnemonic.substring(0, 15)` when
`mainMnemonic` is `undefined` (line 50 of `index.js`). -/
def jsTypeError : JsError :=
  { message := "Cannot read properties of undefined (reading \x27substring\x27)"
    response := none }

/-- `e.response && e.response.status === 429` (line 114). -/
def is429 (e : JsError) : Bool :=
  match e.response with
  | some r => r.status == 429
  | none => false

/-- The optional chain `e.response?.data?.extras?.result_codes` (line 117). -/
def errResultCodes (e : JsError) : Option ResultCodes :=
  ((e.response.bind HttpResponse.data).bind ErrorData.extras).bind
    ErrorExtras.result_codes

/-! ## Account configuration -/

/-- One entry of `accounts.json`.  Fields are optional strings: `none` models
a JS `undefined` field, `some ""` an empty string. -/
structure AccountConfig where
  name : Option String
  mainMnemonic : Option String
  sponsorMnemonic : Option String
  receiverAddress : Option String
deriving DecidableEq, Repr

/-- JS truthiness of an optional string: `undefined` and `""` are falsy. -/
def strTruthy : Option String → Bool
  | none => false
  | some s => !(s == "")

/-- Line 50: `account.name || account.mainMnemonic.substring(0, 15) + '...'`.
If `name` is falsy and `mainMnemonic` is `undefined`, the member access
`.substring` throws a TypeError; otherwise the identifier is `name` or the
first 15 characters of the mnemonic followed by `...`. -/
def accountIdentifier (a : AccountConfig) : Except JsError String :=
  if strTruthy a.name then .ok (a.name.getD "")
  else
    match a.mainMnemonic with
    | some m => .ok (m.take 15 ++ "...")
    | none => .error jsTypeError

/-! ## Key derivation -/

/-- Abstract deterministic primitives of the external crypto libraries:
`bip39.validateMnemonic`, `bip39.mnemonicToSeed(...).toString('hex')`,
`ed25519.derivePath`, `Keypair.fromRawEd25519Seed(..).publicKey()/.secret()`,
and `Keypair.fromSecret(..).publicKey()`. -/
structure CryptoPrims where
  validateMnemonic : String → Bool
  mnemonicToSeedHex : String → String
  derivePathKey : String → String → String
  pubOfRaw : String → String
  secretOfRaw : String → String
  pubOfSecret : String → String

/-- The `{publicKey, secretKey}` pair returned by derivation. -/
structure Wallet where
  publicKey : String
  secretKey : String
deriving DecidableEq, Repr

/-- The fixed derivation path `m/44'/314159'/0'` (line 38). -/
def derivationPath : String := "m/44\x27/314159\x27/0\x27"

/-- The invalid-mnemonic error thrown at line 36:
`` `Mnemonic tidak valid: ${mnemonic.substring(0, 10)}...` ``. -/
def invalidMnemonicError (mnemonic : String) : JsError :=
  { message := "Mnemonic tidak valid: " ++ mnemonic.take 10 ++ "..."
    response := none }

/-- `getPiWalletAddressFromSeed` (lines 35-42): validate the mnemonic, derive
the seed, derive the raw ed25519 key at the fixed path, build the keypair. -/
def getPiWalletAddressFromSeed (p : CryptoPrims) (mnemonic : String) :
    Except JsError Wallet :=
  if !(p.validateMnemonic mnemonic) then .error (invalidMnemonicError mnemonic)
  else
    let seedHex := p.mnemonicToSeedHex mnemonic
    let key := p.derivePathKey derivationPath seedHex
    .ok { publicKey := p.pubOfRaw key, secretKey := p.secretOfRaw key }

/-- Two independent runs of the derivation on the same mnemonic (the
derivation has no other input: no ambient state, clock or network handle
appears in its body, so each run evaluates the same pure expression). -/
def deriveWalletTwice (p : CryptoPrims) (mnemonic : String) :
    Except JsError Wallet × Except JsError Wallet :=
  (getPiWalletAddressFromSeed p mnemonic, getPiWalletAddressFromSeed p mnemonic)

/-! ## Transactions (stellar-sdk surface used by the bot) -/

/-- A claimable-balance record as returned by Horizon: the fields the bot
reads are the opaque `id` and the decimal `amount` string. -/
structure ClaimableBalanceRecord where
  id : String
  amount : String
deriving DecidableEq, Repr

/-- The account object returned by `server.loadAccount` (sequence-number
bookkeeping lives in the SDK; the bot only threads it into the builder). -/
structure LoadedAccount where
  accountId : String
  sequence : Nat
deriving DecidableEq, Repr

/-- Assets: the bot only ever uses `Asset.native()`. -/
inductive Asset where
  | native
deriving DecidableEq, Repr

/-- The two operation kinds the bot constructs. -/
inductive Operation where
  | claimClaimableBalance (balanceId : String)
  | payment (destination : String) (asset : Asset) (amount : String)
deriving DecidableEq, Repr

/-- A built (inner) transaction. -/
structure Tx where
  sourceAccount : LoadedAccount
  fee : String
  networkPassphrase : String
  operations : List Operation
  timeoutSeconds : Option Nat
  signatures : List String
deriving DecidableEq, Repr

/-- `TransactionBuilder` state: source, fee and passphrase fixed at
construction, operations appended one by one, then a timeout, then `build`. -/
structure TxBuilder where
  sourceAccount : LoadedAccount
  fee : String
  networkPassphrase : String
  operations : List Operation
  timeoutSeconds : Option Nat
deriving DecidableEq, Repr

/-- `new TransactionBuilder(source, { fee, networkPassphrase })`. -/
def TxBuilder.new (source : LoadedAccount) (fee : String) (pass : String) :
    TxBuilder :=
  { sourceAccount := source, fee := fee, networkPassphrase := pass,
    operations := [], timeoutSeconds := none }

/-- `.addOperation(op)` appends at the end of the operation list. -/
def TxBuilder.addOperation (b : TxBuilder) (op : Operation) : TxBuilder :=
  { b with operations := b.operations ++ [op] }

/-- `.setTimeout(t)`. -/
def TxBuilder.setTimeout (b : TxBuilder) (t : Nat) : TxBuilder :=
  { b with timeoutSeconds := some t }

/-- `.build()` produces an unsigned transaction. -/
def TxBuilder.build (b : TxBuilder) : Tx :=
  { sourceAccount := b.sourceAccount, fee := b.fee,
    networkPassphrase := b.networkPassphrase, operations := b.operations,
    timeoutSeconds := b.timeoutSeconds, signatures := [] }

/-- `tx.sign(keypair)` adds a signature (modelled by the signing secret). -/
def Tx.sign (t : Tx) (secret : String) : Tx :=
  { t with signatures := t.signatures ++ [secret] }

/-- A fee-bump envelope. -/
structure FeeBumpTx where
  feeSource : String
  fee : String
  innerTx : Tx
  networkPassphrase : String
  signatures : List String
deriving DecidableEq, Repr

/-- `TransactionBuilder.buildFeeBumpTransaction(feeSource, fee, inner, pass)`. -/
def buildFeeBumpTransaction (feeSource : String) (fee : String) (inner : Tx)
    (pass : String) : FeeBumpTx :=
  { feeSource := feeSource, fee := fee, innerTx := inner,
    networkPassphrase := pass, signatures := [] }

/-- `feeBumpTransaction.sign(keypair)`. -/
def FeeBumpTx.signBump (t : FeeBumpTx) (secret : String) : FeeBumpTx :=
  { t with signatures := t.signatures ++ [secret] }

/-- The hard-coded network passphrase (line 60). -/
def networkPassphrase : String := "Pi Network"

/-- `parseInt(baseFee)`: the base fee arrives as a JS number, is coerced to
its decimal string and parsed back, the identity on the naturals in range
(base fees are far below both 2^53 and the 10^21 exponential-notation
threshold). -/
def jsParseInt (n : Nat) : Nat := n

/-- Result of a successful `server.submitTransaction`. -/
structure SubmitResult where
  hash : String
deriving DecidableEq, Repr

/-- The Horizon server oracle: each field models one remote call the bot
makes, returning either a value or a thrown JS error. -/
structure Server where
  claimableBalancesCall : String → Nat → Except JsError (List ClaimableBalanceRecord)
  loadAccount : String → Except JsError LoadedAccount
  fetchBaseFee : Except JsError Nat
  submitTransaction : FeeBumpTx → Except JsError SubmitResult

/-! ## Observable events -/

/-- Classification of the generic-error log detail (line 117):
`e.response?.data?.extras?.result_codes || e.message`. -/
inductive LogDetail where
  | resultCodes (codes : ResultCodes)
  | genericMessage (message : String)
deriving DecidableEq, Repr

/-- One observable step of the program: a log line, a network call, or a
notification.  Log events carry the account identifier they print. -/
inductive Event where
  | logProcessing (ident : String)
  | logConfigIncomplete (ident : String)
  | deriveWallet (mnemonic : String)
  | queryClaimables (claimant : String) (limit : Nat)
  | logNoClaimables (ident : String)
  | logFound (ident : String) (amount : String)
  | loadAccount (publicKey : String)
  | fetchBaseFee
  | logSending (ident : String)
  | submitTx (tx : FeeBumpTx)
  | logSuccess (hash : String)
  | notifyTelegram (name : Option String) (amount : String) (hash : String)
  | logRateLimited (ident : String)
  | logError (ident : String) (detail : LogDetail)
  | logCycleStart
  | logCycleEnd
  | logFatal (e : JsError)
deriving DecidableEq, Repr

/-- The account identifier printed by a log event, if any. -/
def eventIdent : Event → Option String
  | .logProcessing i => some i
  | .logConfigIncomplete i => some i
  | .logNoClaimables i => some i
  | .logFound i _ => some i
  | .logSending i => some i
  | .logRateLimited i => some i
  | .logError i _ => some i
  | _ => none

/-- Events that contact the network (ledger queries, account loads, fee
lookups, submissions, notifications). -/
def networkEvent : Event → Bool
  | .queryClaimables _ _ => true
  | .loadAccount _ => true
  | .fetchBaseFee => true
  | .submitTx _ => true
  | .notifyTelegram _ _ _ => true
  | _ => false

/-- Events that invoke key derivation. -/
def deriveEvent : Event → Bool
  | .deriveWallet _ => true
  | _ => false

def isLogFound : Event → Bool
  | .logFound _ _ => true
  | _ => false

def isSubmitTx : Event → Bool
  | .submitTx _ => true
  | _ => false

def isConfigIncomplete : Event → Bool
  | .logConfigIncomplete _ => true
  | _ => false

/-! ## Account processing (lines 49-121) -/

/-- Lines 84-92: the inner transaction built for one claimable balance —
zero fee, claim-then-pay, native asset, 60-second timeout. -/
def buildInnerTransaction (mainAccount : LoadedAccount)
    (receiverAddress : String) (cb : ClaimableBalanceRecord) : Tx :=
  ((((TxBuilder.new mainAccount "0" networkPassphrase).addOperation
      (.claimClaimableBalance cb.id)).addOperation
      (.payment receiverAddress .native cb.amount)).setTimeout 60).build

/-- Lines 94-104: the signed fee-bump envelope submitted for one record —
the inner transaction signed by the main key, wrapped with fee
`(parseInt(baseFee) * 120).toString()` and signed by the sponsor key. -/
def submittedBump (receiverAddress mainSecret sponsorPub sponsorSecret : String)
    (mainAccount : LoadedAccount) (baseFee : Nat)
    (cb : ClaimableBalanceRecord) : FeeBumpTx :=
  (buildFeeBumpTransaction sponsorPub (toString (jsParseInt baseFee * 120))
    ((buildInnerTransaction mainAccount receiverAddress cb).sign mainSecret)
    networkPassphrase).signBump sponsorSecret

/-- Lines 80-111: the body of the `for (const cb of claimables.records)` loop
for one record.  Returns the events performed and `.error e` when a thrown
error aborts the loop (it is caught only at account level). -/
def processRecord (server : Server) (name : Option String)
    (ident receiverAddress mainPub mainSecret sponsorPub sponsorSecret : String)
    (cb : ClaimableBalanceRecord) : List Event × Except JsError Unit :=
  match server.loadAccount mainPub with
  | .error e => ([.logFound ident cb.amount, .loadAccount mainPub], .error e)
  | .ok mainAccount =>
    match server.fetchBaseFee with
    | .error e =>
      ([.logFound ident cb.amount, .loadAccount mainPub, .fetchBaseFee],
        .error e)
    | .ok baseFee =>
      match server.submitTransaction (submittedBump receiverAddress mainSecret
        sponsorPub sponsorSecret mainAccount baseFee cb) with
      | .error e =>
        ([.logFound ident cb.amount, .loadAccount mainPub, .fetchBaseFee,
          .logSending ident, .submitTx (submittedBump receiverAddress
            mainSecret sponsorPub sponsorSecret mainAccount baseFee cb)],
          .error e)
      | .ok result =>
        ([.logFound ident cb.amount, .loadAccount mainPub, .fetchBaseFee,
          .logSending ident, .submitTx (submittedBump receiverAddress
            mainSecret sponsorPub sponsorSecret mainAccount baseFee cb),
          .logSuccess result.hash,
          .notifyTelegram name cb.amount result.hash], .ok ())

/-- The `for` loop over `claimables.records` (line 79): records processed in
order; a thrown error stops the loop (no catch inside it). -/
def processRecords (server : Server) (name : Option String)
    (ident receiverAddress mainPub mainSecret sponsorPub sponsorSecret : String) :
    List ClaimableBalanceRecord → List Event × Except JsError Unit
  | [] => ([], .ok ())
  | cb :: rest =>
    match processRecord server name ident receiverAddress mainPub mainSecret
      sponsorPub sponsorSecret cb with
    | (evs, .error e) => (evs, .error e)
    | (evs, .ok _) =>
      match processRecords server name ident receiverAddress mainPub mainSecret
        sponsorPub sponsorSecret rest with
      | (evs2, r) => (evs ++ evs2, r)

/-- Lines 62-112: the `try` block of `processAccount` — derive both wallets,
query claimable balances (limit 10), bail out quietly on an empty result,
otherwise run the per-record loop. -/
def tryBody (p : CryptoPrims) (server : Server) (name : Option String)
    (ident mainMnemonic sponsorMnemonic receiverAddress : String) :
    List Event × Except JsError Unit :=
  match getPiWalletAddressFromSeed p mainMnemonic with
  | .error e => ([.deriveWallet mainMnemonic], .error e)
  | .ok mainWallet =>
    match getPiWalletAddressFromSeed p sponsorMnemonic with
    | .error e =>
      ([.deriveWallet mainMnemonic, .deriveWallet sponsorMnemonic], .error e)
    | .ok sponsorWallet =>
      match server.claimableBalancesCall (p.pubOfSecret mainWallet.secretKey)
        10 with
      | .error e =>
        ([.deriveWallet mainMnemonic, .deriveWallet sponsorMnemonic,
          .queryClaimables (p.pubOfSecret mainWallet.secretKey) 10], .error e)
      | .ok records =>
        if records.length == 0 then
          ([.deriveWallet mainMnemonic, .deriveWallet sponsorMnemonic,
            .queryClaimables (p.pubOfSecret mainWallet.secretKey) 10,
            .logNoClaimables ident], .ok ())
        else
          match processRecords server name ident receiverAddress
            (p.pubOfSecret mainWallet.secretKey) mainWallet.secretKey
            (p.pubOfSecret sponsorWallet.secretKey) sponsorWallet.secretKey
            records with
          | (evs, r) =>
            ([.deriveWallet mainMnemonic, .deriveWallet sponsorMnemonic,
              .queryClaimables (p.pubOfSecret mainWallet.secretKey) 10] ++ evs,
              r)

/-- Lines 113-120: the catch block — a 429 response logs the distinct
rate-limited warning, anything else logs the structured result codes when
present, else the generic message. -/
def catchHandlerEvent (ident : String) (e : JsError) : Event :=
  if is429 e then .logRateLimited ident
  else
    match errResultCodes e with
    | some codes => .logError ident (.resultCodes codes)
    | none => .logError ident (.genericMessage e.message)

/-- `processAccount` (lines 49-121): compute the display identifier (this may
throw, uncaught), log the banner, validate the three destructured fields,
then run the try block with the account-level catch.  The returned `Except`
is `.error e` exactly when an exception escapes the function. -/
def processAccount (p : CryptoPrims) (server : Server) (a : AccountConfig) :
    List Event × Except JsError Unit :=
  match accountIdentifier a with
  | .error e => ([], .error e)
  | .ok ident =>
    if !strTruthy a.mainMnemonic || !strTruthy a.sponsorMnemonic ||
        !strTruthy a.receiverAddress then
      ([.logProcessing ident, .logConfigIncomplete ident], .ok ())
    else
      match tryBody p server a.name ident (a.mainMnemonic.getD "")
        (a.sponsorMnemonic.getD "") (a.receiverAddress.getD "") with
      | (evs, .ok _) => (.logProcessing ident :: evs, .ok ())
      | (evs, .error e) =>
        (.logProcessing ident :: (evs ++ [catchHandlerEvent ident e]), .ok ())

/-! ## Orchestrator (lines 126-159) -/

/-- The `for (const account of accounts)` loop inside `while (true)`
(lines 148-150): strictly sequential; an escaping error aborts the loop. -/
def runCycle (p : CryptoPrims) (server : Server) :
    List AccountConfig → List Event × Except JsError Unit
  | [] => ([], .ok ())
  | a :: rest =>
    match processAccount p server a with
    | (evs, .error e) => (evs, .error e)
    | (evs, .ok _) =>
      match runCycle p server rest with
      | (evs2, r) => (evs ++ evs2, r)

/-- Outcome of running the orchestrator for a bounded number of cycles:
either it is still looping, or an error escaped to the top-level `.catch`
(line 157) and the loop is over. -/
inductive RunOutcome where
  | running
  | fatal (e : JsError)
deriving DecidableEq, Repr

/-- Fuel-bounded unrolling of `while (true)` (lines 146-152) together with the
top-level `.catch` (lines 157-159): each cycle sweeps every account; an error
escaping `processAccount` ends the orchestrator with a fatal log. -/
def runCycles (p : CryptoPrims) (server : Server)
    (accounts : List AccountConfig) : Nat → List Event × RunOutcome
  | 0 => ([], .running)
  | n + 1 =>
    match runCycle p server accounts with
    | (evs, .error e) =>
      (.logCycleStart :: (evs ++ [.logFatal e]), .fatal e)
    | (evs, .ok _) =>
      match runCycles p server accounts n with
      | (evs2, r) => (.logCycleStart :: (evs ++ (.logCycleEnd :: evs2)), r)

/-! ## Concrete oracles for instantiation -/

/-- Concrete crypto primitives: three fixed mnemonics pass validation;
derivation is string bookkeeping. -/
def demoPrims : CryptoPrims :=
  { validateMnemonic := fun m =>
      m == "valid main one" || m == "valid sponsor" || m == "valid main two"
    mnemonicToSeedHex := fun m => m ++ "-seed"
    derivePathKey := fun path seed => path ++ ":" ++ seed
    pubOfRaw := fun k => "PUBRAW:" ++ k
    secretOfRaw := fun k => "SEC:" ++ k
    pubOfSecret := fun s => "PUB:" ++ s }

def demoRecordA : ClaimableBalanceRecord := { id := "BAL1", amount := "10.5" }

def demoRecordB : ClaimableBalanceRecord := { id := "BAL2", amount := "7.2" }

/-- A transaction-rejection error carrying structured result codes. -/
def demoRejection : JsError :=
  { message := "Request failed with status code 400"
    response := some ⟨400, some ⟨some ⟨some ⟨"tx_failed", ["op_no_trust"]⟩⟩⟩⟩ }

/-- A rate-limiting error: HTTP 429, no structured payload. -/
def demoRateLimited : JsError :=
  { message := "Request failed with status code 429"
    response := some ⟨429, none⟩ }

/-- A transport-level error with no HTTP response attached. -/
def demoNetError : JsError :=
  { message := "socket hang up", response := none }

/-- A server with no claimable balances. -/
def emptyServer : Server :=
  { claimableBalancesCall := fun _ _ => .ok []
    loadAccount := fun pub => .ok { accountId := pub, sequence := 7 }
    fetchBaseFee := .ok 100
    submitTransaction := fun _ => .ok { hash := "HASH" } }

/-- A server with two claimable balances that rejects every submission. -/
def rejectServer : Server :=
  { claimableBalancesCall := fun _ _ => .ok [demoRecordA, demoRecordB]
    loadAccount := fun pub => .ok { accountId := pub, sequence := 7 }
    fetchBaseFee := .ok 100
    submitTransaction := fun _ => .error demoRejection }

/-- A server with one claimable balance where every call succeeds. -/
def okServer : Server :=
  { claimableBalancesCall := fun _ _ => .ok [demoRecordA]
    loadAccount := fun pub => .ok { accountId := pub, sequence := 7 }
    fetchBaseFee := .ok 100
    submitTransaction := fun _ => .ok { hash := "TXHASH0123456789abcdef" } }

/-- A fully valid account configuration. -/
def demoAccountA : AccountConfig :=
  { name := some "A", mainMnemonic := some "valid main one"
    sponsorMnemonic := some "valid sponsor", receiverAddress := some "GRECV" }

/-- A second valid account configuration. -/
def demoAccountB : AccountConfig :=
  { name := some "B", mainMnemonic := some "valid main two"
    sponsorMnemonic := some "valid sponsor", receiverAddress := some "GRECV" }

/-- Valid except that `name` is unset. -/
def demoNoName : AccountConfig :=
  { name := none, mainMnemonic := some "valid main one"
    sponsorMnemonic := some "valid sponsor", receiverAddress := some "GRECV" }

/-- `name` unset and `mainMnemonic` absent: line 50 throws. -/
def demoBadIdent : AccountConfig :=
  { name := none, mainMnemonic := none
    sponsorMnemonic := some "valid sponsor", receiverAddress := some "GRECV" }

/-- Valid `name`, but `sponsorMnemonic` is missing. -/
def demoNoSponsor : AccountConfig :=
  { name := some "A", mainMnemonic := some "valid main one"
    sponsorMnemonic := none, receiverAddress := some "GRECV" }

/-- Valid fields except an invalid main mnemonic. -/
def demoBadMnemonic : AccountConfig :=
  { name := some "A", mainMnemonic := some "wrong words here"
    sponsorMnemonic := some "valid sponsor", receiverAddress := some "GRECV" }

/-- The main wallet derived from `"valid main one"` under `demoPrims`. -/
def demoMainWallet : Wallet :=
  { publicKey := demoPrims.pubOfRaw
      (demoPrims.derivePathKey derivationPath
        (demoPrims.mnemonicToSeedHex "valid main one"))
    secretKey := demoPrims.secretOfRaw
      (demoPrims.derivePathKey derivationPath
        (demoPrims.mnemonicToSeedHex "valid main one")) }

/-- The sponsor wallet derived from `"valid sponsor"` under `demoPrims`. -/
def demoSponsorWallet : Wallet :=
  { publicKey := demoPrims.pubOfRaw
      (demoPrims.derivePathKey derivationPath
        (demoPrims.mnemonicToSeedHex "valid sponsor"))
    secretKey := demoPrims.secretOfRaw
      (demoPrims.derivePathKey derivationPath
        (demoPrims.mnemonicToSeedHex "valid sponsor")) }

def demoMainPub : String := demoPrims.pubOfSecret demoMainWallet.secretKey

def demoSponsorPub : String := demoPrims.pubOfSecret demoSponsorWallet.secretKey

/-- The fee-bump envelope the bot submits for `demoRecordA` under
`demoPrims`/`okServer`. -/
def demoBump : FeeBumpTx :=
  submittedBump "GRECV" demoMainWallet.secretKey demoSponsorPub
    demoSponsorWallet.secretKey { accountId := demoMainPub, sequence := 7 } 100
    demoRecordA

/-! ## Helper lemmas -/

/-- The catch handler always emits a log event carrying the identifier it was
given. -/
theorem catchHandlerEvent_ident (i : String) (e : JsError) :
    eventIdent (catchHandlerEvent i e) = some i := by
  unfold catchHandlerEvent
  split
  · rfl
  · split <;> rfl

/-- The catch handler never emits a network or submit event. -/
theorem catchHandlerEvent_not_network (i : String) (e : JsError) :
    networkEvent (catchHandlerEvent i e) = false ∧
      isSubmitTx (catchHandlerEvent i e) = false ∧
      isLogFound (catchHandlerEvent i e) = false := by
  unfold catchHandlerEvent
  split
  · exact ⟨rfl, rfl, rfl⟩
  · split <;> exact ⟨rfl, rfl, rfl⟩

/-- When the display identifier computes, no exception escapes
`processAccount`: every branch after line 50 either returns or is caught by
the account-level catch. -/
theorem processAccount_no_escape (p : CryptoPrims) (s : Server)
    (a : AccountConfig) (ident : String)
    (h : accountIdentifier a = .ok ident) :
    (processAccount p s a).2 = Except.ok () := by
  unfold processAccount
  rw [h]
  simp only []
  split
  · rfl
  · split <;> rfl

/-- When the display identifier computes, the banner log for that identifier
is the first event of the trace. -/
theorem processAccount_mem_logProcessing (p : CryptoPrims) (s : Server)
    (a : AccountConfig) (ident : String)
    (h : accountIdentifier a = .ok ident) :
    Event.logProcessing ident ∈ (processAccount p s a).1 := by
  unfold processAccount
  rw [h]
  simp only []
  split
  · exact List.mem_cons_self _ _
  · split <;> exact List.mem_cons_self _ _

/-- Every submit event of one record's processing submits exactly the signed
fee-bump envelope built from a loaded account and a fetched base fee. -/
theorem processRecord_submit_eq (s : Server) (name : Option String)
    (ident recv mainPub mainSecret sponsorPub sponsorSecret : String)
    (cb : ClaimableBalanceRecord) (tx : FeeBumpTx)
    (h : Event.submitTx tx ∈ (processRecord s name ident recv mainPub
      mainSecret sponsorPub sponsorSecret cb).1) :
    ∃ acct b, s.loadAccount mainPub = .ok acct ∧ s.fetchBaseFee = .ok b ∧
      tx = submittedBump recv mainSecret sponsorPub sponsorSecret acct b cb := by
  unfold processRecord at h
  split at h
  · simp at h
  · rename_i acct hacct
    split at h
    · simp at h
    · rename_i b hb
      split at h <;> rename_i hsub <;> simp at h <;>
        exact ⟨acct, b, hacct, hb, h⟩

/-- Every submit event of the record loop comes from one of the records. -/
theorem processRecords_submit_eq (s : Server) (name : Option String)
    (ident recv mainPub mainSecret sponsorPub sponsorSecret : String)
    (records : List ClaimableBalanceRecord) (tx : FeeBumpTx)
    (h : Event.submitTx tx ∈ (processRecords s name ident recv mainPub
      mainSecret sponsorPub sponsorSecret records).1) :
    ∃ cb ∈ records, ∃ acct b,
      s.loadAccount mainPub = .ok acct ∧ s.fetchBaseFee = .ok b ∧
      tx = submittedBump recv mainSecret sponsorPub sponsorSecret acct b cb := by
  induction records with
  | nil => simp [processRecords] at h
  | cons cb rest ih =>
    unfold processRecords at h
    split at h
    · rename_i evs e heq
      obtain ⟨acct, b, h1, h2, h3⟩ := processRecord_submit_eq s name ident recv
        mainPub mainSecret sponsorPub sponsorSecret cb tx (by rw [heq]; exact h)
      exact ⟨cb, List.mem_cons_self _ _, acct, b, h1, h2, h3⟩
    · rename_i evs heq
      split at h
      rename_i evs2 r heq2
      rcases List.mem_append.mp h with h | h
      · obtain ⟨acct, b, h1, h2, h3⟩ := processRecord_submit_eq s name ident
          recv mainPub mainSecret sponsorPub sponsorSecret cb tx
          (by rw [heq]; exact h)
        exact ⟨cb, List.mem_cons_self _ _, acct, b, h1, h2, h3⟩
      · obtain ⟨cb2, hmem, rest2⟩ := ih (by rw [heq2]; exact h)
        exact ⟨cb2, List.mem_cons_of_mem _ hmem, rest2⟩

/-- Every submit event of the try block submits a signed fee-bump envelope
built for one of the queried records, from the derived main wallet, a loaded
account and a fetched base fee. -/
theorem tryBody_submit_eq (p : CryptoPrims) (s : Server) (name : Option String)
    (ident mm sm recv : String) (tx : FeeBumpTx)
    (h : Event.submitTx tx ∈ (tryBody p s name ident mm sm recv).1) :
    ∃ wM wS records, getPiWalletAddressFromSeed p mm = .ok wM ∧
      getPiWalletAddressFromSeed p sm = .ok wS ∧
      s.claimableBalancesCall (p.pubOfSecret wM.secretKey) 10 = .ok records ∧
      ∃ cb ∈ records, ∃ acct b,
        s.loadAccount (p.pubOfSecret wM.secretKey) = .ok acct ∧
        s.fetchBaseFee = .ok b ∧
        tx = submittedBump recv wM.secretKey (p.pubOfSecret wS.secretKey)
          wS.secretKey acct b cb := by
  unfold tryBody at h
  split at h
  · simp at h
  · rename_i wM hwM
    split at h
    · simp at h
    · rename_i wS hwS
      split at h
      · simp at h
      · rename_i records hq
        split at h
        · simp at h
        · split at h
          rename_i evs r heq
          rcases List.mem_append.mp h with h | h
          · exact absurd h (by simp)
          · obtain ⟨cb, hmem, rest2⟩ := processRecords_submit_eq s name ident
              recv (p.pubOfSecret wM.secretKey) wM.secretKey
              (p.pubOfSecret wS.secretKey) wS.secretKey records tx
              (by rw [heq]; exact h)
            exact ⟨wM, wS, records, hwM, hwS, hq, cb, hmem, rest2⟩

/-- Every submit event of `processAccount` submits a signed fee-bump envelope
built for one of the queried records, with the account's configured receiver
address. -/
theorem processAccount_submit_eq (p : CryptoPrims) (s : Server)
    (a : AccountConfig) (tx : FeeBumpTx)
    (h : Event.submitTx tx ∈ (processAccount p s a).1) :
    ∃ wM wS records,
      getPiWalletAddressFromSeed p (a.mainMnemonic.getD "") = .ok wM ∧
      getPiWalletAddressFromSeed p (a.sponsorMnemonic.getD "") = .ok wS ∧
      s.claimableBalancesCall (p.pubOfSecret wM.secretKey) 10 = .ok records ∧
      ∃ cb ∈ records, ∃ acct b,
        s.loadAccount (p.pubOfSecret wM.secretKey) = .ok acct ∧
        s.fetchBaseFee = .ok b ∧
        tx = submittedBump (a.receiverAddress.getD "") wM.secretKey
          (p.pubOfSecret wS.secretKey) wS.secretKey acct b cb := by
  unfold processAccount at h
  split at h
  · simp at h
  · rename_i ident hident
    split at h
    · simp at h
    · split at h
      · rename_i evs u heq
        rcases List.mem_cons.mp h with h | h
        · exact absurd h (by simp)
        · exact tryBody_submit_eq p s a.name ident (a.mainMnemonic.getD "")
            (a.sponsorMnemonic.getD "") (a.receiverAddress.getD "") tx
            (by rw [heq]; exact h)
      · rename_i evs e heq
        rcases List.mem_cons.mp h with h | h
        · exact absurd h (by simp)
        · rcases List.mem_append.mp h with h | h
          · exact tryBody_submit_eq p s a.name ident (a.mainMnemonic.getD "")
              (a.sponsorMnemonic.getD "") (a.receiverAddress.getD "") tx
              (by rw [heq]; exact h)
          · rcases catchHandlerEvent_not_network ident e with ⟨_, h2, _⟩
            rw [← List.mem_singleton.mp h] at h2
            simp [isSubmitTx] at h2

/-- Derivation on a mnemonic failing validation throws the invalid-mnemonic
error. -/
theorem getPiWallet_invalid (p : CryptoPrims) (m : String)
    (h : p.validateMnemonic m = false) :
    getPiWalletAddressFromSeed p m = .error (invalidMnemonicError m) := by
  unfold getPiWalletAddressFromSeed
  rw [h]
  rfl

/-- Derivation on a mnemonic passing validation returns the keypair derived
from the fixed path. -/
theorem getPiWallet_valid (p : CryptoPrims) (m : String)
    (h : p.validateMnemonic m = true) :
    getPiWalletAddressFromSeed p m = .ok
      { publicKey := p.pubOfRaw
          (p.derivePathKey derivationPath (p.mnemonicToSeedHex m))
        secretKey := p.secretOfRaw
          (p.derivePathKey derivationPath (p.mnemonicToSeedHex m)) } := by
  unfold getPiWalletAddressFromSeed
  rw [h]
  rfl

/-- An invalid main mnemonic makes the try block fail at the first
derivation: no query, load, fee lookup or submission was performed. -/
theorem tryBody_invalid_main (p : CryptoPrims) (s : Server)
    (name : Option String) (ident mm sm recv : String)
    (h : p.validateMnemonic mm = false) :
    tryBody p s name ident mm sm recv =
      ([.deriveWallet mm], .error (invalidMnemonicError mm)) := by
  unfold tryBody
  rw [getPiWallet_invalid p mm h]

/-- An invalid sponsor mnemonic makes the try block fail at the second
derivation, still before any ledger call. -/
theorem tryBody_invalid_sponsor (p : CryptoPrims) (s : Server)
    (name : Option String) (ident mm sm recv : String)
    (hm : p.validateMnemonic mm = true) (h : p.validateMnemonic sm = false) :
    tryBody p s name ident mm sm recv =
      ([.deriveWallet mm, .deriveWallet sm],
        .error (invalidMnemonicError sm)) := by
  unfold tryBody
  rw [getPiWallet_valid p mm hm, getPiWallet_invalid p sm h]

/-- Whenever the try block throws, `processAccount` returns normally with the
try block's events followed by exactly one classification log from the catch
handler. -/
theorem processAccount_catch (p : CryptoPrims) (s : Server) (a : AccountConfig)
    (ident : String) (evs : List Event) (e : JsError)
    (hid : accountIdentifier a = .ok ident)
    (hm : strTruthy a.mainMnemonic = true)
    (hs : strTruthy a.sponsorMnemonic = true)
    (hr : strTruthy a.receiverAddress = true)
    (htb : tryBody p s a.name ident (a.mainMnemonic.getD "")
      (a.sponsorMnemonic.getD "") (a.receiverAddress.getD "") =
        (evs, .error e)) :
    processAccount p s a =
      (.logProcessing ident :: (evs ++ [catchHandlerEvent ident e]),
        .ok ()) := by
  unfold processAccount
  rw [hid]
  simp only [hm, hs, hr, Bool.not_true, Bool.or_self, Bool.or_false,
    Bool.false_or, if_neg, htb]
  rfl

/-- Whenever the try block returns normally, `processAccount` returns its
events after the banner log. -/
theorem processAccount_try_ok (p : CryptoPrims) (s : Server)
    (a : AccountConfig) (ident : String) (evs : List Event)
    (hid : accountIdentifier a = .ok ident)
    (hm : strTruthy a.mainMnemonic = true)
    (hs : strTruthy a.sponsorMnemonic = true)
    (hr : strTruthy a.receiverAddress = true)
    (htb : tryBody p s a.name ident (a.mainMnemonic.getD "")
      (a.sponsorMnemonic.getD "") (a.receiverAddress.getD "") =
        (evs, .ok ())) :
    processAccount p s a = (.logProcessing ident :: evs, .ok ()) := by
  unfold processAccount
  rw [hid]
  simp only [hm, hs, hr, Bool.not_true, Bool.or_self, Bool.or_false,
    Bool.false_or, if_neg, htb]
  rfl

/-- If either configured mnemonic fails validation, the whole account trace
contains no network event: no ledger query, account load, fee lookup,
submission or notification happens. -/
theorem processAccount_no_network_of_invalid (p : CryptoPrims) (s : Server)
    (a : AccountConfig)
    (hinv : p.validateMnemonic (a.mainMnemonic.getD "") = false ∨
      p.validateMnemonic (a.sponsorMnemonic.getD "") = false) :
    ((processAccount p s a).1.all fun ev => !networkEvent ev) = true := by
  unfold processAccount
  split
  · rfl
  · rename_i ident hident
    split
    · rfl
    · rename_i hcfg
      have hne : ∃ evs e, tryBody p s a.name ident (a.mainMnemonic.getD "")
          (a.sponsorMnemonic.getD "") (a.receiverAddress.getD "") =
            (evs, .error e) ∧
          (evs.all fun ev => !networkEvent ev) = true := by
        rcases hinv with hinv | hinv
        · exact ⟨_, _, tryBody_invalid_main p s a.name ident _ _ _ hinv, rfl⟩
        · cases hv : p.validateMnemonic (a.mainMnemonic.getD "") with
          | false =>
            exact ⟨_, _, tryBody_invalid_main p s a.name ident _ _ _ hv, rfl⟩
          | true =>
            exact ⟨_, _,
              tryBody_invalid_sponsor p s a.name ident _ _ _ hv hinv, rfl⟩
      obtain ⟨evs, e, htb, hall⟩ := hne
      rw [htb]
      simp only [List.all_cons, List.all_append, hall, List.all_nil,
        Bool.and_true, Bool.true_and]
      rcases catchHandlerEvent_not_network ident e with ⟨hn, _, _⟩
      rw [hn]
      simp [networkEvent]

/-- Every identifier-bearing event of one record's processing carries the
identifier it was given. -/
theorem processRecord_eventIdent (s : Server) (name : Option String)
    (ident recv mainPub mainSecret sponsorPub sponsorSecret : String)
    (cb : ClaimableBalanceRecord) (ev : Event)
    (h : ev ∈ (processRecord s name ident recv mainPub mainSecret sponsorPub
      sponsorSecret cb).1) :
    eventIdent ev = none ∨ eventIdent ev = some ident := by
  unfold processRecord at h
  split at h
  · simp only [List.mem_cons, List.not_mem_nil, or_false] at h
    rcases h with rfl | rfl <;> simp [eventIdent]
  · split at h
    · simp only [List.mem_cons, List.not_mem_nil, or_false] at h
      rcases h with rfl | rfl | rfl <;> simp [eventIdent]
    · split at h
      · simp only [List.mem_cons, List.not_mem_nil, or_false] at h
        rcases h with rfl | rfl | rfl | rfl | rfl <;> simp [eventIdent]
      · simp only [List.mem_cons, List.not_mem_nil, or_false] at h
        rcases h with rfl | rfl | rfl | rfl | rfl | rfl | rfl <;>
          simp [eventIdent]

/-- Every identifier-bearing event of the record loop carries the identifier
it was given. -/
theorem processRecords_eventIdent (s : Server) (name : Option String)
    (ident recv mainPub mainSecret sponsorPub sponsorSecret : String)
    (records : List ClaimableBalanceRecord) (ev : Event)
    (h : ev ∈ (processRecords s name ident recv mainPub mainSecret sponsorPub
      sponsorSecret records).1) :
    eventIdent ev = none ∨ eventIdent ev = some ident := by
  induction records with
  | nil => simp [processRecords] at h
  | cons cb rest ih =>
    unfold processRecords at h
    split at h
    · rename_i evs e heq
      exact processRecord_eventIdent s name ident recv mainPub mainSecret
        sponsorPub sponsorSecret cb ev (by rw [heq]; exact h)
    · rename_i evs heq
      split at h
      rename_i evs2 r heq2
      rcases List.mem_append.mp h with h | h
      · exact processRecord_eventIdent s name ident recv mainPub mainSecret
          sponsorPub sponsorSecret cb ev (by rw [heq]; exact h)
      · exact ih (by rw [heq2]; exact h)

/-- Every identifier-bearing event of the try block carries the identifier it
was given. -/
theorem tryBody_eventIdent (p : CryptoPrims) (s : Server)
    (name : Option String) (ident mm sm recv : String) (ev : Event)
    (h : ev ∈ (tryBody p s name ident mm sm recv).1) :
    eventIdent ev = none ∨ eventIdent ev = some ident := by
  unfold tryBody at h
  split at h
  · simp only [List.mem_cons, List.not_mem_nil, or_false] at h
    subst h
    simp [eventIdent]
  · rename_i wM hwM
    split at h
    · simp only [List.mem_cons, List.not_mem_nil, or_false] at h
      rcases h with rfl | rfl <;> simp [eventIdent]
    · rename_i wS hwS
      split at h
      · simp only [List.mem_cons, List.not_mem_nil, or_false] at h
        rcases h with rfl | rfl | rfl <;> simp [eventIdent]
      · rename_i records hq
        split at h
        · simp only [List.mem_cons, List.not_mem_nil, or_false] at h
          rcases h with rfl | rfl | rfl | rfl <;> simp [eventIdent]
        · split at h
          rename_i evs r heq
          rcases List.mem_append.mp h with h | h
          · simp only [List.mem_cons, List.not_mem_nil, or_false] at h
            rcases h with rfl | rfl | rfl <;> simp [eventIdent]
          · exact processRecords_eventIdent s name ident recv _ _ _ _ records
              ev (by rw [heq]; exact h)

/-- Every identifier-bearing event of the whole account trace carries the
display identifier computed at line 50. -/
theorem processAccount_eventIdent (p : CryptoPrims) (s : Server)
    (a : AccountConfig) (ident : String) (ev : Event)
    (hid : accountIdentifier a = .ok ident)
    (h : ev ∈ (processAccount p s a).1) :
    eventIdent ev = none ∨ eventIdent ev = some ident := by
  unfold processAccount at h
  rw [hid] at h
  simp only [] at h
  split at h
  · simp only [List.mem_cons, List.not_mem_nil, or_false] at h
    rcases h with rfl | rfl <;> simp [eventIdent]
  · split at h
    · rename_i evs u heq
      rcases List.mem_cons.mp h with rfl | h
      · simp [eventIdent]
      · exact tryBody_eventIdent p s a.name ident _ _ _ ev
          (by rw [heq]; exact h)
    · rename_i evs e heq
      rcases List.mem_cons.mp h with rfl | h
      · simp [eventIdent]
      · rcases List.mem_append.mp h with h | h
        · exact tryBody_eventIdent p s a.name ident _ _ _ ev
            (by rw [heq]; exact h)
        · rw [List.mem_singleton.mp h]
          exact .inr (catchHandlerEvent_ident ident e)

/-- A record whose submission is rejected produces exactly one found-log, one
load, one fee lookup, one send-log and one submit, then throws. -/
theorem processRecord_submit_fail (s : Server) (name : Option String)
    (ident recv mainPub mainSecret sponsorPub sponsorSecret : String)
    (cb : ClaimableBalanceRecord) (acct : LoadedAccount) (b : Nat)
    (e : JsError) (hload : s.loadAccount mainPub = .ok acct)
    (hfee : s.fetchBaseFee = .ok b)
    (hsub : s.submitTransaction (submittedBump recv mainSecret sponsorPub
      sponsorSecret acct b cb) = .error e) :
    processRecord s name ident recv mainPub mainSecret sponsorPub
      sponsorSecret cb =
      ([.logFound ident cb.amount, .loadAccount mainPub, .fetchBaseFee,
        .logSending ident, .submitTx (submittedBump recv mainSecret sponsorPub
          sponsorSecret acct b cb)], .error e) := by
  simp only [processRecord, hload, hfee, hsub]

/-- A throw while processing the first record stops the loop: the remaining
records contribute nothing to the trace. -/
theorem processRecords_first_error (s : Server) (name : Option String)
    (ident recv mainPub mainSecret sponsorPub sponsorSecret : String)
    (cb : ClaimableBalanceRecord) (rest : List ClaimableBalanceRecord)
    (evs : List Event) (e : JsError)
    (h : processRecord s name ident recv mainPub mainSecret sponsorPub
      sponsorSecret cb = (evs, .error e)) :
    processRecords s name ident recv mainPub mainSecret sponsorPub
      sponsorSecret (cb :: rest) = (evs, .error e) := by
  unfold processRecords
  rw [h]

/-- With both wallets derived and a non-empty query result, the try block is
the derivation and query events followed by the record loop. -/
theorem tryBody_records (p : CryptoPrims) (s : Server) (name : Option String)
    (ident mm sm recv : String) (wM wS : Wallet)
    (cb1 : ClaimableBalanceRecord) (rest : List ClaimableBalanceRecord)
    (evs : List Event) (r : Except JsError Unit)
    (hwM : getPiWalletAddressFromSeed p mm = .ok wM)
    (hwS : getPiWalletAddressFromSeed p sm = .ok wS)
    (hq : s.claimableBalancesCall (p.pubOfSecret wM.secretKey) 10 =
      .ok (cb1 :: rest))
    (hpr : processRecords s name ident recv (p.pubOfSecret wM.secretKey)
      wM.secretKey (p.pubOfSecret wS.secretKey) wS.secretKey (cb1 :: rest) =
      (evs, r)) :
    tryBody p s name ident mm sm recv =
      ([.deriveWallet mm, .deriveWallet sm,
        .queryClaimables (p.pubOfSecret wM.secretKey) 10] ++ evs, r) := by
  simp only [tryBody, hwM, hwS, hq, hpr, List.length_cons]
  simp

/-! ## Claim C1 -/

/-- C1 counterexample: the claimable-balance query returns two records and
processing of the first fails at submission, yet the trace contains exactly
one found-log and one submission — the second record of the same account was
never reached within the cycle, contradicting "continues to the next balance
record of the same account". -/
theorem c1_counterexample :
    rejectServer.claimableBalancesCall demoMainPub 10 =
      .ok [demoRecordA, demoRecordB] ∧
    ((processAccount demoPrims rejectServer demoAccountA).1.countP isLogFound)
      = 1 ∧
    Event.logFound "A" demoRecordB.amount ∉
      (processAccount demoPrims rejectServer demoAccountA).1 ∧
    ((processAccount demoPrims rejectServer demoAccountA).1.countP isSubmitTx)
      = 1 := by
  refine ⟨rfl, by decide, by decide, by decide⟩

/-- C1 amended: if processing of a balance record fails (here: the
build/sign/submit path throws at submission), the error is caught at account
level — the failed record is not retried, the remaining balance records of
the same account are skipped for this cycle, the failure is logged once
through the classifier, and `processAccount` returns normally so processing
continues with the next account. -/
theorem c1_failure_aborts_account_records (p : CryptoPrims) (s : Server)
    (a : AccountConfig) (ident : String) (wM wS : Wallet)
    (acct : LoadedAccount) (b : Nat) (cb1 cb2 : ClaimableBalanceRecord)
    (rest : List ClaimableBalanceRecord) (e : JsError)
    (hid : accountIdentifier a = .ok ident)
    (hm : strTruthy a.mainMnemonic = true)
    (hs : strTruthy a.sponsorMnemonic = true)
    (hr : strTruthy a.receiverAddress = true)
    (hwM : getPiWalletAddressFromSeed p (a.mainMnemonic.getD "") = .ok wM)
    (hwS : getPiWalletAddressFromSeed p (a.sponsorMnemonic.getD "") = .ok wS)
    (hq : s.claimableBalancesCall (p.pubOfSecret wM.secretKey) 10 =
      .ok (cb1 :: cb2 :: rest))
    (hload : s.loadAccount (p.pubOfSecret wM.secretKey) = .ok acct)
    (hfee : s.fetchBaseFee = .ok b)
    (hsub : s.submitTransaction (submittedBump (a.receiverAddress.getD "")
      wM.secretKey (p.pubOfSecret wS.secretKey) wS.secretKey acct b cb1) =
      .error e) :
    processAccount p s a =
      ([.logProcessing ident, .deriveWallet (a.mainMnemonic.getD ""),
        .deriveWallet (a.sponsorMnemonic.getD ""),
        .queryClaimables (p.pubOfSecret wM.secretKey) 10,
        .logFound ident cb1.amount,
        .loadAccount (p.pubOfSecret wM.secretKey), .fetchBaseFee,
        .logSending ident,
        .submitTx (submittedBump (a.receiverAddress.getD "") wM.secretKey
          (p.pubOfSecret wS.secretKey) wS.secretKey acct b cb1),
        catchHandlerEvent ident e], .ok ()) ∧
    ((processAccount p s a).1.countP isLogFound) = 1 ∧
    ((processAccount p s a).1.countP isSubmitTx) = 1 := by
  have h1 := processRecord_submit_fail s a.name ident
    (a.receiverAddress.getD "") (p.pubOfSecret wM.secretKey) wM.secretKey
    (p.pubOfSecret wS.secretKey) wS.secretKey cb1 acct b e hload hfee hsub
  have h2 := processRecords_first_error s a.name ident
    (a.receiverAddress.getD "") (p.pubOfSecret wM.secretKey) wM.secretKey
    (p.pubOfSecret wS.secretKey) wS.secretKey cb1 (cb2 :: rest) _ e h1
  have h3 := tryBody_records p s a.name ident (a.mainMnemonic.getD "")
    (a.sponsorMnemonic.getD "") (a.receiverAddress.getD "") wM wS cb1
    (cb2 :: rest) _ _ hwM hwS hq h2
  have h4 := processAccount_catch p s a ident _ e hid hm hs hr h3
  obtain ⟨_, hsb, hlf⟩ := catchHandlerEvent_not_network ident e
  refine ⟨by rw [h4]; rfl, ?_, ?_⟩
  · rw [h4]
    simp only [List.countP_cons, List.countP_append, List.countP_nil, hlf]
    simp [isLogFound]
  · rw [h4]
    simp only [List.countP_cons, List.countP_append, List.countP_nil, hsb]
    simp [isSubmitTx]

/-- C1 witness: the amended statement at a concrete configuration, two
pending records and a rejecting server. -/
theorem c1_witness :
    processAccount demoPrims rejectServer demoAccountA =
      ([.logProcessing "A", .deriveWallet "valid main one",
        .deriveWallet "valid sponsor", .queryClaimables demoMainPub 10,
        .logFound "A" demoRecordA.amount, .loadAccount demoMainPub,
        .fetchBaseFee, .logSending "A",
        .submitTx (submittedBump "GRECV" demoMainWallet.secretKey
          demoSponsorPub demoSponsorWallet.secretKey
          { accountId := demoMainPub, sequence := 7 } 100 demoRecordA),
        catchHandlerEvent "A" demoRejection], .ok ()) ∧
    ((processAccount demoPrims rejectServer demoAccountA).1.countP isLogFound)
      = 1 ∧
    ((processAccount demoPrims rejectServer demoAccountA).1.countP isSubmitTx)
      = 1 :=
  c1_failure_aborts_account_records demoPrims rejectServer demoAccountA "A"
    demoMainWallet demoSponsorWallet { accountId := demoMainPub, sequence := 7 }
    100 demoRecordA demoRecordB [] demoRejection rfl rfl rfl rfl rfl rfl rfl
    rfl rfl rfl

/-! ## Claim C2 -/

/-- C2 counterexample: for an account with `name` unset and `mainMnemonic`
absent, the TypeError from the identifier computation escapes
`processAccount`, and the validly configured account B that follows in the
same cycle is never processed. -/
theorem c2_counterexample :
    (processAccount demoPrims emptyServer demoBadIdent).2 =
      .error jsTypeError ∧
    runCycle demoPrims emptyServer [demoBadIdent, demoAccountB] =
      ([], .error jsTypeError) ∧
    Event.logProcessing "B" ∉
      (runCycle demoPrims emptyServer [demoBadIdent, demoAccountB]).1 := by
  refine ⟨rfl, rfl, by decide⟩

/-- C2 amended: for every account whose display identifier computes (`name`
truthy, or `mainMnemonic` present), no error escapes `processAccount`, and
every such configured account is still processed in the same cycle; the sole
exception is the identifier computation itself (see C10). -/
theorem c2_errors_confined_to_account (p : CryptoPrims) (s : Server)
    (accounts : List AccountConfig)
    (h : ∀ a ∈ accounts, ∃ i, accountIdentifier a = .ok i) :
    (runCycle p s accounts).2 = .ok () ∧
    ∀ a ∈ accounts, ∀ i, accountIdentifier a = .ok i →
      Event.logProcessing i ∈ (runCycle p s accounts).1 := by
  induction accounts with
  | nil => exact ⟨rfl, by simp⟩
  | cons a rest ih =>
    obtain ⟨i, hi⟩ := h a (List.mem_cons_self a rest)
    obtain ⟨ih1, ih2⟩ := ih (fun a2 ha2 => h a2 (List.mem_cons_of_mem a ha2))
    rcases hpa : processAccount p s a with ⟨evs, r⟩
    have hok : r = .ok () := by
      have := processAccount_no_escape p s a i hi
      rw [hpa] at this
      exact this
    subst hok
    rcases hrc : runCycle p s rest with ⟨evs2, r2⟩
    rw [hrc] at ih1 ih2
    have hcalc : runCycle p s (a :: rest) = (evs ++ evs2, r2) := by
      unfold runCycle
      rw [hpa]
      simp only []
      rw [hrc]
    rw [hcalc]
    refine ⟨ih1, ?_⟩
    intro a2 ha2 i2 hi2
    rcases List.mem_cons.mp ha2 with rfl | ha2
    · have := processAccount_mem_logProcessing p s a2 i2 hi2
      rw [hpa] at this
      exact List.mem_append.mpr (.inl this)
    · exact List.mem_append.mpr (.inr (ih2 a2 ha2 i2 hi2))

/-- C2 witness: a two-account cycle where both accounts are processed and the
loop finishes normally. -/
theorem c2_witness :
    (runCycle demoPrims emptyServer [demoAccountA, demoAccountB]).2 =
      .ok () ∧
    Event.logProcessing "A" ∈
      (runCycle demoPrims emptyServer [demoAccountA, demoAccountB]).1 ∧
    Event.logProcessing "B" ∈
      (runCycle demoPrims emptyServer [demoAccountA, demoAccountB]).1 := by
  obtain ⟨h1, h2⟩ := c2_errors_confined_to_account demoPrims emptyServer
    [demoAccountA, demoAccountB] (by
      intro a ha
      rcases List.mem_cons.mp ha with rfl | ha
      · exact ⟨"A", rfl⟩
      · rcases List.mem_cons.mp ha with rfl | ha
        · exact ⟨"B", rfl⟩
        · exact absurd ha (List.not_mem_nil a))
  exact ⟨h1, h2 demoAccountA (List.mem_cons_self _ _) "A" rfl,
    h2 demoAccountB (List.mem_cons_of_mem _ (List.mem_cons_self _ _)) "B" rfl⟩

/-! ## Claim C3 -/

/-- C3 counterexample: an account whose `name` field is missing but whose
three remaining fields are set is NOT skipped — keys are derived and the
network is queried, and no config-incomplete error is logged, contradicting
"any of the four config fields". -/
theorem c3_counterexample :
    demoNoName.name = none ∧
    ((processAccount demoPrims emptyServer demoNoName).1.any networkEvent)
      = true ∧
    ((processAccount demoPrims emptyServer demoNoName).1.any deriveEvent)
      = true ∧
    ((processAccount demoPrims emptyServer demoNoName).1.any
      isConfigIncomplete) = false := by
  refine ⟨rfl, by decide, by decide, by decide⟩

/-- C3 amended: if any of the three validated fields (`mainMnemonic`,
`sponsorMnemonic`, `receiverAddress`) is missing or empty — `name` is not
checked — and the display identifier computes, `processAccount` logs the
config-incomplete error identifying the account and returns with no key
derivation and no network contact. -/
theorem c3_missing_field_skips_account (p : CryptoPrims) (s : Server)
    (a : AccountConfig) (ident : String)
    (hid : accountIdentifier a = .ok ident)
    (hmiss : strTruthy a.mainMnemonic = false ∨
      strTruthy a.sponsorMnemonic = false ∨
      strTruthy a.receiverAddress = false) :
    processAccount p s a =
      ([.logProcessing ident, .logConfigIncomplete ident], .ok ()) ∧
    ((processAccount p s a).1.all
      fun ev => !networkEvent ev && !deriveEvent ev) = true := by
  have hcond : (!strTruthy a.mainMnemonic || !strTruthy a.sponsorMnemonic ||
      !strTruthy a.receiverAddress) = true := by
    rcases hmiss with h | h | h <;> simp [h]
  have heq : processAccount p s a =
      ([.logProcessing ident, .logConfigIncomplete ident], .ok ()) := by
    unfold processAccount
    rw [hid]
    simp only [hcond, if_true]
  exact ⟨heq, by rw [heq]; rfl⟩

/-- C3 witness: a missing sponsor mnemonic leads to the logged skip with no
derivation and no network contact. -/
theorem c3_witness :
    processAccount demoPrims emptyServer demoNoSponsor =
      ([.logProcessing "A", .logConfigIncomplete "A"], .ok ()) ∧
    ((processAccount demoPrims emptyServer demoNoSponsor).1.all
      fun ev => !networkEvent ev && !deriveEvent ev) = true :=
  c3_missing_field_skips_account demoPrims emptyServer demoNoSponsor "A" rfl
    (.inr (.inl rfl))

/-! ## Claim C4 -/

/-- C4: for every base fee `b` returned by the fee lookup, every fee-bump
transaction the account processor submits declares exactly the fee
`120 * b`, computed by exact natural-number arithmetic. -/
theorem c4_fee_bump_fee_exact (p : CryptoPrims) (s : Server)
    (a : AccountConfig) (b : Nat) (tx : FeeBumpTx)
    (hfee : s.fetchBaseFee = .ok b)
    (h : Event.submitTx tx ∈ (processAccount p s a).1) :
    tx.fee = toString (120 * b) := by
  obtain ⟨wM, wS, records, _, _, _, cb, _, acct, b2, _, hb2, htx⟩ :=
    processAccount_submit_eq p s a tx h
  rw [hfee] at hb2
  injection hb2 with hb
  subst hb
  subst htx
  simp [submittedBump, buildFeeBumpTransaction, FeeBumpTx.signBump,
    jsParseInt, Nat.mul_comm]

/-- C4 witness: with base fee 100 the submitted envelope declares fee
`toString (120 * 100) = "12000"`. -/
theorem c4_witness : demoBump.fee = toString (120 * 100) :=
  c4_fee_bump_fee_exact demoPrims okServer demoAccountA 100 demoBump rfl
    (by decide)

/-! ## Claim C5 -/

/-- C5: every inner transaction the account processor submits has exactly the
two operations `[claimClaimableBalance(id), payment(receiver, amount,
native)]` in that order for one claimable-balance record, a declared fee of
zero, and a 60-second timeout window. -/
theorem c5_inner_tx_shape (p : CryptoPrims) (s : Server) (a : AccountConfig)
    (tx : FeeBumpTx) (h : Event.submitTx tx ∈ (processAccount p s a).1) :
    tx.innerTx.fee = "0" ∧ tx.innerTx.timeoutSeconds = some 60 ∧
    ∃ cb : ClaimableBalanceRecord, tx.innerTx.operations =
      [.claimClaimableBalance cb.id,
        .payment (a.receiverAddress.getD "") .native cb.amount] := by
  obtain ⟨wM, wS, records, _, _, _, cb, _, acct, b, _, _, htx⟩ :=
    processAccount_submit_eq p s a tx h
  subst htx
  exact ⟨rfl, rfl, cb, rfl⟩

/-- C5 witness: the concrete envelope submitted for `demoRecordA`. -/
theorem c5_witness :
    demoBump.innerTx.fee = "0" ∧ demoBump.innerTx.timeoutSeconds = some 60 ∧
    ∃ cb : ClaimableBalanceRecord, demoBump.innerTx.operations =
      [.claimClaimableBalance cb.id, .payment "GRECV" .native cb.amount] :=
  c5_inner_tx_shape demoPrims okServer demoAccountA demoBump (by decide)

/-! ## Claim C6 -/

/-- C6: a string failing mnemonic validation makes derivation fail with the
invalid-mnemonic error (and nothing else: the function returns that error
immediately), and whenever either configured mnemonic fails validation the
account's whole trace contains no network event — in particular the
derivation error propagates before any ledger query, so no query, load, fee
lookup, submission or notification is performed. -/
theorem c6_invalid_mnemonic_aborts :
    (∀ (p : CryptoPrims) (m : String), p.validateMnemonic m = false →
      getPiWalletAddressFromSeed p m = .error (invalidMnemonicError m)) ∧
    (∀ (p : CryptoPrims) (s : Server) (a : AccountConfig),
      (p.validateMnemonic (a.mainMnemonic.getD "") = false ∨
        p.validateMnemonic (a.sponsorMnemonic.getD "") = false) →
      ((processAccount p s a).1.all fun ev => !networkEvent ev) = true) :=
  ⟨getPiWallet_invalid, processAccount_no_network_of_invalid⟩

/-- C6 witness: the invalid mnemonic `"wrong words here"` yields the
invalid-mnemonic error, and the account configured with it performs no
network operations. -/
theorem c6_witness :
    getPiWalletAddressFromSeed demoPrims "wrong words here" =
      .error (invalidMnemonicError "wrong words here") ∧
    ((processAccount demoPrims emptyServer demoBadMnemonic).1.all
      fun ev => !networkEvent ev) = true :=
  ⟨c6_invalid_mnemonic_aborts.1 demoPrims "wrong words here" rfl,
    c6_invalid_mnemonic_aborts.2 demoPrims emptyServer demoBadMnemonic
      (.inl rfl)⟩

/-! ## Claim C7 -/

/-- C7: wallet derivation is deterministic — the body of
`getPiWalletAddressFromSeed` reads nothing but its mnemonic argument and the
fixed derivation path, so two runs on the same valid mnemonic both succeed
with the identical `{publicKey, secretKey}` pair. -/
theorem c7_derivation_deterministic (p : CryptoPrims) (m : String)
    (h : p.validateMnemonic m = true) :
    ∃ w : Wallet, (deriveWalletTwice p m).1 = .ok w ∧
      (deriveWalletTwice p m).2 = .ok w := by
  exact ⟨_, getPiWallet_valid p m h, getPiWallet_valid p m h⟩

/-- C7 witness: two runs on `"valid main one"` agree. -/
theorem c7_witness :
    ∃ w : Wallet, (deriveWalletTwice demoPrims "valid main one").1 = .ok w ∧
      (deriveWalletTwice demoPrims "valid main one").2 = .ok w :=
  c7_derivation_deterministic demoPrims "valid main one" rfl

/-! ## Claim C8 -/

/-- C8: the catch handler classifies every caught failure — an error carrying
an HTTP response with status 429 is logged as the distinct rate-limited
outcome; otherwise the structured result codes are logged when present on the
error response, else the error's generic message; and every error thrown in
the try block reaches this handler exactly once, appended after the try
block's events. -/
theorem c8_error_classification :
    (∀ (i : String) (e : JsError), is429 e = true →
      catchHandlerEvent i e = .logRateLimited i) ∧
    (∀ (i : String) (e : JsError) (c : ResultCodes), is429 e = false →
      errResultCodes e = some c →
      catchHandlerEvent i e = .logError i (.resultCodes c)) ∧
    (∀ (i : String) (e : JsError), is429 e = false →
      errResultCodes e = none →
      catchHandlerEvent i e = .logError i (.genericMessage e.message)) ∧
    (∀ (p : CryptoPrims) (s : Server) (a : AccountConfig) (ident : String)
      (evs : List Event) (e : JsError),
      accountIdentifier a = .ok ident →
      strTruthy a.mainMnemonic = true → strTruthy a.sponsorMnemonic = true →
      strTruthy a.receiverAddress = true →
      tryBody p s a.name ident (a.mainMnemonic.getD "")
        (a.sponsorMnemonic.getD "") (a.receiverAddress.getD "") =
        (evs, .error e) →
      processAccount p s a =
        (.logProcessing ident :: (evs ++ [catchHandlerEvent ident e]),
          .ok ())) := by
  refine ⟨?_, ?_, ?_, processAccount_catch⟩
  · intro i e h
    unfold catchHandlerEvent
    rw [h]
    rfl
  · intro i e c h1 h2
    unfold catchHandlerEvent
    rw [h1, h2]
    rfl
  · intro i e h1 h2
    unfold catchHandlerEvent
    rw [h1, h2]
    rfl

/-- C8 witness: the three error shapes at concrete errors, and the catch
handler receiving a concrete in-try failure. -/
theorem c8_witness :
    catchHandlerEvent "A" demoRateLimited = .logRateLimited "A" ∧
    catchHandlerEvent "A" demoRejection =
      .logError "A" (.resultCodes ⟨"tx_failed", ["op_no_trust"]⟩) ∧
    catchHandlerEvent "A" demoNetError =
      .logError "A" (.genericMessage "socket hang up") ∧
    processAccount demoPrims emptyServer demoBadMnemonic =
      (.logProcessing "A" :: ([.deriveWallet "wrong words here"] ++
        [catchHandlerEvent "A" (invalidMnemonicError "wrong words here")]),
        .ok ()) :=
  ⟨c8_error_classification.1 "A" demoRateLimited rfl,
    c8_error_classification.2.1 "A" demoRejection
      ⟨"tx_failed", ["op_no_trust"]⟩ rfl rfl,
    c8_error_classification.2.2.1 "A" demoNetError rfl rfl,
    c8_error_classification.2.2.2 demoPrims emptyServer demoBadMnemonic "A"
      [.deriveWallet "wrong words here"]
      (invalidMnemonicError "wrong words here") rfl rfl rfl rfl
      (tryBody_invalid_main demoPrims emptyServer (some "A") "A"
        "wrong words here" "valid sponsor" "GRECV" rfl)⟩

/-! ## Claim C9 -/

/-- C9: when `name` is unset the display identifier — used by every
identifier-bearing log line of that account's trace — is the first 15
characters of the main mnemonic followed by `...`, and the invalid-mnemonic
error's message embeds the first 10 characters of the mnemonic: secret
seed-phrase prefixes flow into log output. -/
theorem c9_identifier_leaks_mnemonic :
    (∀ (a : AccountConfig) (m : String), strTruthy a.name = false →
      a.mainMnemonic = some m →
      accountIdentifier a = .ok (m.take 15 ++ "...")) ∧
    (∀ (p : CryptoPrims) (s : Server) (a : AccountConfig) (m : String)
      (ev : Event), strTruthy a.name = false → a.mainMnemonic = some m →
      ev ∈ (processAccount p s a).1 →
      eventIdent ev = none ∨ eventIdent ev = some (m.take 15 ++ "...")) ∧
    (∀ (p : CryptoPrims) (m : String), p.validateMnemonic m = false →
      ∃ e, getPiWalletAddressFromSeed p m = .error e ∧
        e.message = "Mnemonic tidak valid: " ++ m.take 10 ++ "...") := by
  have hident : ∀ (a : AccountConfig) (m : String), strTruthy a.name = false →
      a.mainMnemonic = some m →
      accountIdentifier a = .ok (m.take 15 ++ "...") := by
    intro a m h1 h2
    unfold accountIdentifier
    rw [h1, h2]
    rfl
  refine ⟨hident, ?_, ?_⟩
  · intro p s a m ev h1 h2 hmem
    exact processAccount_eventIdent p s a (m.take 15 ++ "...") ev
      (hident a m h1 h2) hmem
  · intro p m h
    exact ⟨invalidMnemonicError m, getPiWallet_invalid p m h, rfl⟩

/-- C9 witness: the unnamed account is identified by its mnemonic prefix in
the empty-result log line, and the invalid-mnemonic message embeds the first
10 characters of `"wrong words here"`. -/
theorem c9_witness :
    accountIdentifier demoNoName = .ok ("valid main one".take 15 ++ "...") ∧
    (eventIdent (Event.logNoClaimables "valid main one...") = none ∨
      eventIdent (Event.logNoClaimables "valid main one...") =
        some ("valid main one".take 15 ++ "...")) ∧
    (∃ e, getPiWalletAddressFromSeed demoPrims "wrong words here" =
        .error e ∧
      e.message =
        "Mnemonic tidak valid: " ++ "wrong words here".take 10 ++ "...") :=
  ⟨c9_identifier_leaks_mnemonic.1 demoNoName "valid main one" rfl rfl,
    c9_identifier_leaks_mnemonic.2.1 demoPrims emptyServer demoNoName
      "valid main one" (Event.logNoClaimables "valid main one...") rfl rfl
      (by decide),
    c9_identifier_leaks_mnemonic.2.2 demoPrims "wrong words here" rfl⟩

/-! ## Claim C10 -/

/-- C10: when `name` is unset and `mainMnemonic` absent, `processAccount`
throws the TypeError while computing the display identifier — before the
banner log and the missing-field validation and outside the try/catch (the
trace is empty and the outcome is an escaping error) — so the error aborts
the account loop and ends the orchestrator through the top-level catch with
a fatal log, leaving all following accounts unprocessed. -/
theorem c10_typeerror_ends_orchestrator (p : CryptoPrims) (s : Server)
    (a : AccountConfig) (rest : List AccountConfig)
    (h1 : strTruthy a.name = false) (h2 : a.mainMnemonic = none) :
    processAccount p s a = ([], .error jsTypeError) ∧
    runCycle p s (a :: rest) = ([], .error jsTypeError) ∧
    runCycles p s (a :: rest) 1 =
      ([.logCycleStart, .logFatal jsTypeError], .fatal jsTypeError) := by
  have hid : accountIdentifier a = .error jsTypeError := by
    unfold accountIdentifier
    rw [h1, h2]
    rfl
  have hpa : processAccount p s a = ([], .error jsTypeError) := by
    unfold processAccount
    rw [hid]
  have hrc : runCycle p s (a :: rest) = ([], .error jsTypeError) := by
    unfold runCycle
    rw [hpa]
  refine ⟨hpa, hrc, ?_⟩
  unfold runCycles
  rw [hrc]
  rfl

/-- C10 witness: the concrete misconfigured account followed by a valid
account B; the cycle dies fatally without processing B. -/
theorem c10_witness :
    processAccount demoPrims emptyServer demoBadIdent =
      ([], .error jsTypeError) ∧
    runCycle demoPrims emptyServer [demoBadIdent, demoAccountB] =
      ([], .error jsTypeError) ∧
    runCycles demoPrims emptyServer [demoBadIdent, demoAccountB] 1 =
      ([.logCycleStart, .logFatal jsTypeError], .fatal jsTypeError) :=
  c10_typeerror_ends_orchestrator demoPrims emptyServer demoBadIdent
    [demoAccountB] rfl rfl

end Fastbotclaim
